import Mathlib

/-!
Shallow embedding of the `ao3-fandom-analyzer` repository.

The repository has two source files, `fandom.py` (the feature-complete
variant, canonical per the design notes) and `AO3_analyzer.py` (an earlier
near-duplicate).  Both define a `Fandom` class over an external archive
search client (`AO3.Search`, `AO3.utils.Constraint`).  This file embeds:

* Python dictionaries as insertion-ordered association lists (`PyDict`)
  with `setdefault`-style update semantics;
* the module-level `counter` helper of `fandom.py`;
* the constraint-building logic of `Fandom.__init__` (the same four-way
  `if` pattern, inlined per dimension in the source, is factored here as
  `mkConstraint` and instantiated four times in `Fandom.init`);
* the query bundle passed to the external `AO3.Search` call (`Query`),
  with the external client modelled as an oracle `SearchEnv` that either
  returns a result page or fails with a Python-style exception;
* `Fandom.getRatingComposition`, `Fandom.getWarningComposition` and
  `Fandom.attributeCounter` of `fandom.py`, with Python's true division
  embedded as the fallible `pydiv` (raising `ZeroDivisionError` on a zero
  denominator) and `round(x, 2)` as round-half-to-even at two decimals
  over `ℚ`;
* the `AO3_analyzer.py` variant of `attributeCounter` (namespace
  `Analyzer`), including its misspelled local variable: the total result
  count is stored under `totalWrokCount` while the loop condition reads
  `totalWorkCount`, embedded as an `Option Nat` local that is never set on
  the no-sample-size path, so reading it raises `NameError`.

Exceptions raised while a caller-supplied dictionary has already been
mutated in place are modelled by pairing the error with the dictionary
state at the raise point (`Except (PyError × _) _`), which is exactly what
the Python caller observes through the alias it holds.  The unbounded
`while` loops are embedded with explicit fuel; running out of fuel is the
distinguished outcome `none`.
-/

namespace AO3Analyzer

/-- Python dict as an insertion-ordered association list. -/
abbrev PyDict (α β : Type) := List (α × β)

/-- Python `d[k]` lookup (first binding wins; `pySet` keeps keys unique). -/
def pyGet {α β : Type} [DecidableEq α] (d : PyDict α β) (k : α) : Option β :=
  match d with
  | [] => none
  | (k', v') :: rest => if k = k' then some v' else pyGet rest k

/-- Python `d[k] = v`: update in place if the key exists, else append. -/
def pySet {α β : Type} [DecidableEq α] (d : PyDict α β) (k : α) (v : β) : PyDict α β :=
  match d with
  | [] => [(k, v)]
  | (k', v') :: rest => if k = k' then (k', v) :: rest else (k', v') :: pySet rest k v

/-- Python `k in d`. -/
def pyContains {α β : Type} [DecidableEq α] (d : PyDict α β) (k : α) : Bool :=
  (pyGet d k).isSome

/-- Module level helper of `fandom.py`: destructive `counter(countDict, itemList)`.
For each item, `currentCount = countDict.setdefault(item, 0)` followed by
`countDict[item] = currentCount + 1`, i.e. increment, inserting at count 1
(appended at the end of insertion order) when the key is absent. -/
def counter (countDict : PyDict String Nat) (itemList : List String) : PyDict String Nat :=
  itemList.foldl (fun d item => pySet d item ((pyGet d item).getD 0 + 1)) countDict

/-- External client value type `AO3.utils.Constraint(lowest, highest)`: a numeric
interval; `highest = none` means unbounded above. -/
structure Constraint where
  lowest : Int
  highest : Option Int
deriving DecidableEq, Repr

/-- Python exceptions that can surface through this layer. -/
inductive PyError where
  | zeroDivisionError
  | nameError (name : String)
  | typeError (msg : String)
  | httpError (code : Nat)
deriving DecidableEq, Repr

/-- One fan-work record of a result page (`work.tags`, `work.relationships`,
`work.characters`). -/
structure Work where
  tags : List String
  relationships : List String
  characters : List String
deriving DecidableEq, Repr

/-- An updated `AO3.Search` object: total result count of the unpaginated
query plus the works on the requested page. -/
structure Page where
  totalResults : Nat
  results : List Work
deriving DecidableEq, Repr

/-- The parameter bundle handed to one `AO3.Search(...)` call. -/
structure Query where
  fandoms : String
  singleChapter : Bool
  wordCount : Option Constraint
  language : String
  hits : Option Constraint
  bookmarks : Option Constraint
  comments : Option Constraint
  crossover : Option Bool
  completionStatus : Option Bool
  revisedAt : String
  relationships : String
  characters : String
  tags : String
  rating : Option Nat
  warnings : Option (List Nat)
  sortColumn : String
  sortDirection : String
  page : Nat
deriving DecidableEq, Repr

/-- The external archive client: one `search.update()` round-trip, which
either yields a page or raises (transport/auth errors etc.). -/
abbrev SearchEnv := Query → Except PyError Page

/-- Constraint construction of `Fandom.__init__` (the source inlines this
`if` pattern once per numeric dimension): both bounds `None` gives no
constraint; a present minimum gives `Constraint(min, max)`; a maximum
without a minimum gives `Constraint(0, max)`. -/
def mkConstraint (mn mx : Option Int) : Option Constraint :=
  if mn.isSome || mx.isSome then
    if h : mn.isSome then some { lowest := mn.get h, highest := mx }
    else some { lowest := 0, highest := mx }
  else none

/-- The `Fandom` object after `__init__` has completed. -/
structure Fandom where
  fandomName : String
  session : Option Unit
  singleChapter : Bool
  language : String
  crossover : Option Bool
  completionStatus : Option Bool
  revisedAt : String
  characters : String
  relationships : String
  tags : String
  wordCountConstraint : Option Constraint
  hitConstraint : Option Constraint
  bookmarkConstraint : Option Constraint
  commentConstraint : Option Constraint
  totalWorks : Nat
deriving DecidableEq, Repr

/-- Embedding of `fandom.py`, `Fandom.search(...)`: the query bundle built from the stored
filters plus the per-call overrides (rating, warnings, sort, page). -/
def Fandom.searchQuery (f : Fandom) (rating : Option Nat) (warnings : Option (List Nat))
    (sortColumn sortDirection : String) (pageNumber : Nat) : Query :=
  { fandoms := f.fandomName
    singleChapter := f.singleChapter
    wordCount := f.wordCountConstraint
    language := f.language
    hits := f.hitConstraint
    bookmarks := f.bookmarkConstraint
    comments := f.commentConstraint
    crossover := f.crossover
    completionStatus := f.completionStatus
    revisedAt := f.revisedAt
    relationships := f.relationships
    characters := f.characters
    tags := f.tags
    rating := rating
    warnings := warnings
    sortColumn := sortColumn
    sortDirection := sortDirection
    page := pageNumber }

/-- Embedding of `fandom.py`, `Fandom.__init__`: store the filters, build the four
constraints, then run one unfiltered search to record `totalWorks`.
`AO3.Search` defaults apply for the parameters the constructor does not
pass: no rating, no warnings, empty sort, page 1. -/
def Fandom.init (env : SearchEnv) (fandomName : String) (session : Option Unit)
    (singleChapter : Bool) (wordCountMin wordCountMax : Option Int) (language : String)
    (minHits maxHits minBookmarks maxBookmarks minComments maxComments : Option Int)
    (crossover completionStatus : Option Bool)
    (revisedAt characters relationships tags : String) : Except PyError Fandom :=
  let f : Fandom :=
    { fandomName := fandomName
      session := session
      singleChapter := singleChapter
      language := language
      crossover := crossover
      completionStatus := completionStatus
      revisedAt := revisedAt
      characters := characters
      relationships := relationships
      tags := tags
      wordCountConstraint := mkConstraint wordCountMin wordCountMax
      hitConstraint := mkConstraint minHits maxHits
      bookmarkConstraint := mkConstraint minBookmarks maxBookmarks
      commentConstraint := mkConstraint minComments maxComments
      totalWorks := 0 }
  match env (f.searchQuery none none "" "" 1) with
  | .error e => .error e
  | .ok page => .ok { f with totalWorks := page.totalResults }

/-- Python true division `a / b`: raises `ZeroDivisionError` when `b = 0`. -/
def pydiv (a b : ℚ) : Except PyError ℚ :=
  if b = 0 then .error .zeroDivisionError else .ok (a / b)

/-- Round-half-to-even to an integer (the tie-breaking rule of Python's
built-in `round`). -/
def rhe (q : ℚ) : Int :=
  let f := ⌊q⌋
  let r := q - (f : ℚ)
  if r < 1 / 2 then f
  else if 1 / 2 < r then f + 1
  else if f % 2 = 0 then f else f + 1

/-- Python `round(q, 2)`. -/
def round2 (q : ℚ) : ℚ := (rhe (q * 100) : ℚ) / 100

/-- The loop body of `getRatingComposition`: for each rating code, one
filtered search, then `round(100 * total_results / self.totalWorks, 2)`,
stored under the rating key. -/
def Fandom.ratingLoop (env : SearchEnv) (f : Fandom) :
    List Nat → PyDict Nat (Option (Nat × ℚ)) →
    Except PyError (PyDict Nat (Option (Nat × ℚ)))
  | [], acc => .ok acc
  | i :: rest, acc =>
    match env (f.searchQuery (some (i + 9)) none "" "" 1) with
    | .error e => .error e
    | .ok page =>
      match pydiv (100 * (page.totalResults : ℚ)) (f.totalWorks : ℚ) with
      | .error e => .error e
      | .ok q => Fandom.ratingLoop env f rest
          (pySet acc (i + 9) (some (page.totalResults, round2 q)))

/-- Embedding of `fandom.py`, `Fandom.getRatingComposition`: dict of the five rating keys,
then for `i in range(0, 5)` one search restricted to rating `i + 9` and the
`(count, percentage)` pair. -/
def Fandom.getRatingComposition (env : SearchEnv) (f : Fandom) :
    Except PyError (PyDict Nat (Option (Nat × ℚ))) :=
  Fandom.ratingLoop env f (List.range 5)
    [(9, none), (10, none), (11, none), (12, none), (13, none)]

/-- The warning buckets with their report labels (`fandom.py`,
`getWarningComposition`). -/
def warningPairs : List (Nat × String) :=
  [(14, "Creator Chose Not To Use Archive Warnings: "),
   (16, "No Archive Warnings Apply: "),
   (17, "Graphic Depictions Of Violence: "),
   (18, "Major Character Death: "),
   (19, "Rape/Non-Con: "),
   (20, "Underage: ")]

/-- The loop body of `getWarningComposition`: per warning bucket one search
(with the optional rating restriction), percentage against `totalWorks`,
and the formatted report line. -/
def Fandom.warningLoop (env : SearchEnv) (f : Fandom) (ratingRestriction : Option Nat) :
    List (Nat × String) → Except PyError (List String)
  | [] => .ok []
  | (value, label) :: rest =>
    match env (f.searchQuery ratingRestriction (some [value]) "" "" 1) with
    | .error e => .error e
    | .ok page =>
      match pydiv (100 * (page.totalResults : ℚ)) (f.totalWorks : ℚ) with
      | .error e => .error e
      | .ok q =>
        let total := page.totalResults
        let pct := round2 q
        match Fandom.warningLoop env f ratingRestriction rest with
        | .error e => .error e
        | .ok rs => .ok ((label ++ s!"{total} fics, {pct} percent of the fandom.\n") :: rs)

/-- Embedding of `fandom.py`, `Fandom.getWarningComposition`: the six warning-bucket
report lines joined after a fandom-name header. -/
def Fandom.getWarningComposition (env : SearchEnv) (f : Fandom)
    (ratingRestriction : Option Nat) : Except PyError String :=
  match Fandom.warningLoop env f ratingRestriction warningPairs with
  | .error e => .error e
  | .ok parts => .ok (f.fandomName ++ " Fandom\n" ++ String.join parts)

/-- The nested tag-count dictionary of `attributeCounter`. -/
abbrev TagCount := PyDict String (PyDict String Nat)

/-- The three per-loop list variables of `fandom.py`'s `attributeCounter`
(`relationshipList, characterList, tagList = None, None, None`), which keep
their values across works within one run. -/
structure Regs where
  relationshipList : Option (List String)
  characterList : Option (List String)
  tagList : Option (List String)
deriving DecidableEq, Repr

/-- Initial `tagCount` when the caller passes none (`fandom.py` lines
184-186): one empty sub-dict under the recognized selector, else all three. -/
def initTagCount (ty : String) : TagCount :=
  if ty = "tags" ∨ ty = "relationships" ∨ ty = "characters" then [(ty, [])]
  else [("tags", []), ("relationships", []), ("characters", [])]

/-- One `if key in tagCount: counter(tagCount[key], lst)` step.  Calling
`counter` on a still-`None` list variable raises `TypeError` before any
mutation, as iterating `None` does in Python. -/
def countInto (tc : TagCount) (key : String) (lst : Option (List String)) :
    Except PyError TagCount :=
  if pyContains tc key then
    match lst with
    | none => .error (.typeError "argument of type NoneType is not iterable")
    | some l => .ok (pySet tc key (counter ((pyGet tc key).getD []) l))
  else .ok tc

/-- The per-work body of `fandom.py`'s `attributeCounter` loop: set the list
variable(s) selected by `type`, then count into whichever of the three
sub-dicts exist.  On an exception the dictionary state already mutated in
place is returned with the error. -/
def processWork (ty : String) (tc : TagCount) (regs : Regs) (w : Work) :
    Except (PyError × TagCount) (TagCount × Regs) :=
  let regs :=
    if ty = "relationships" then { regs with relationshipList := some w.relationships }
    else if ty = "characters" then { regs with characterList := some w.characters }
    else if ty = "tags" then { regs with tagList := some w.tags }
    else { relationshipList := some w.relationships
           characterList := some w.characters
           tagList := some w.tags }
  match countInto tc "relationships" regs.relationshipList with
  | .error e => .error (e, tc)
  | .ok tc1 =>
    match countInto tc1 "characters" regs.characterList with
    | .error e => .error (e, tc1)
    | .ok tc2 =>
      match countInto tc2 "tags" regs.tagList with
      | .error e => .error (e, tc2)
      | .ok tc3 => .ok (tc3, regs)

/-- Embedding of `for work in currentPage.results`: fold `processWork` over the page,
incrementing `ficsCounted` once per work. -/
def processWorks (ty : String) :
    List Work → TagCount → Regs → Nat →
    Except (PyError × TagCount) (TagCount × Regs × Nat)
  | [], tc, regs, fics => .ok (tc, regs, fics)
  | w :: ws, tc, regs, fics =>
    match processWork ty tc regs w with
    | .error p => .error p
    | .ok (tc', regs') => processWorks ty ws tc' regs' (fics + 1)

/-- The `while ficsCounted < totalWorkCount` loop of `fandom.py`'s
`attributeCounter`, with explicit fuel (one unit per iteration; `none`
models the loop still running).  A successful run also reports how many
page fetches the loop performed; `time.sleep(waitTime)` is a no-op here. -/
def Fandom.attrLoop (env : SearchEnv) (f : Fandom) (ty : String) (rating : Option Nat)
    (warnings : Option (List Nat)) (sortColumn sortDirection : String)
    (totalWorkCount : Nat) :
    Nat → Nat → Nat → Regs → TagCount →
    Option (Except (PyError × TagCount) (TagCount × Nat))
  | fuel, ficsCounted, pageNumber, regs, tagCount =>
    if ficsCounted < totalWorkCount then
      match fuel with
      | 0 => none
      | fuel' + 1 =>
        match env (f.searchQuery rating warnings sortColumn sortDirection pageNumber) with
        | .error e => some (.error (e, tagCount))
        | .ok page =>
          match processWorks ty page.results tagCount regs ficsCounted with
          | .error p => some (.error p)
          | .ok (tc', regs', fics') =>
            match Fandom.attrLoop env f ty rating warnings sortColumn sortDirection
                totalWorkCount fuel' fics' (pageNumber + 1) regs' tc' with
            | none => none
            | some (.error p) => some (.error p)
            | some (.ok (tcf, fetches)) => some (.ok (tcf, fetches + 1))
    else some (.ok (tagCount, 0))

/-- Embedding of `fandom.py`, `Fandom.attributeCounter`: default the seed dictionary,
take the target count from `sampleSize` or from a preliminary
total-count search, then run the pagination loop from `startPage`. -/
def Fandom.attributeCounter (env : SearchEnv) (f : Fandom) (ty : String)
    (rating : Option Nat) (warnings : Option (List Nat)) (sampleSize : Option Nat)
    (sortColumn sortDirection : String) (startPage : Nat) (waitTime : Nat)
    (tagCount : Option TagCount) (fuel : Nat) :
    Option (Except (PyError × TagCount) (TagCount × Nat)) :=
  let tc :=
    match tagCount with
    | none => initTagCount ty
    | some t => t
  let regs : Regs := { relationshipList := none, characterList := none, tagList := none }
  match sampleSize with
  | some n =>
    Fandom.attrLoop env f ty rating warnings sortColumn sortDirection n fuel 0 startPage regs tc
  | none =>
    match env (f.searchQuery rating warnings "" "" 1) with
    | .error e => some (.error (e, tc))
    | .ok page =>
      Fandom.attrLoop env f ty rating warnings sortColumn sortDirection page.totalResults
        fuel 0 startPage regs tc

end AO3Analyzer

namespace AO3Analyzer.Analyzer

open AO3Analyzer

/-- Queries of the `AO3_analyzer.py` variant: its `Fandom` has no free-text character, relationship or
tag filters, so its `AO3.Search` calls leave them at the library default
(empty string). -/
def query (f : Fandom) (rating : Option Nat) (warnings : Option (List Nat))
    (sortColumn sortDirection : String) (pageNumber : Nat) : Query :=
  { fandoms := f.fandomName
    singleChapter := f.singleChapter
    wordCount := f.wordCountConstraint
    language := f.language
    hits := f.hitConstraint
    bookmarks := f.bookmarkConstraint
    comments := f.commentConstraint
    crossover := f.crossover
    completionStatus := f.completionStatus
    revisedAt := f.revisedAt
    relationships := ""
    characters := ""
    tags := ""
    rating := rating
    warnings := warnings
    sortColumn := sortColumn
    sortDirection := sortDirection
    page := pageNumber }

/-- The per-page `for work in currentPage.results` body of
`AO3_analyzer.py`'s `attributeCounter`: pick one attribute list (`tags` for
any unrecognized selector) and count it into the flat dictionary. -/
def countPage (ty : String) :
    List Work → PyDict String Nat → Nat → PyDict String Nat × Nat
  | [], tc, fics => (tc, fics)
  | w :: ws, tc, fics =>
    let attributeList :=
      if ty = "relationships" then w.relationships
      else if ty = "characters" then w.characters
      else w.tags
    countPage ty ws (counter tc attributeList) (fics + 1)

/-- The `while ficsCounted <= totalWorkCount` loop of `AO3_analyzer.py`.
The bound is an `Option Nat` because the local `totalWorkCount` is unbound
on the no-sample-size path (the total is stored under the misspelled
`totalWrokCount`); evaluating the condition then raises `NameError`. -/
def loop (env : SearchEnv) (f : Fandom) (ty : String) (rating : Option Nat)
    (warnings : Option (List Nat)) (sortColumn sortDirection : String)
    (totalWorkCount : Option Nat) :
    Nat → Nat → Nat → PyDict String Nat →
    Option (Except (PyError × PyDict String Nat) (PyDict String Nat × Nat))
  | fuel, ficsCounted, pageNumber, tagCount =>
    match totalWorkCount with
    | none => some (.error (.nameError "totalWorkCount", tagCount))
    | some t =>
      if ficsCounted ≤ t then
        match fuel with
        | 0 => none
        | fuel' + 1 =>
          match env (query f rating warnings sortColumn sortDirection pageNumber) with
          | .error e => some (.error (e, tagCount))
          | .ok page =>
            match countPage ty page.results tagCount ficsCounted with
            | (tc', fics') =>
              match loop env f ty rating warnings sortColumn sortDirection
                  totalWorkCount fuel' fics' (pageNumber + 1) tc' with
              | none => none
              | some (.error p) => some (.error p)
              | some (.ok (tcf, fetches)) => some (.ok (tcf, fetches + 1))
      else some (.ok (tagCount, 0))

/-- Embedding of `AO3_analyzer.py`, `Fandom.attributeCounter`: fresh flat `tagCount`,
page number starting at 1.  With a `sampleSize` the bound is set; without
one the preliminary count search runs but its result lands in the
misspelled `totalWrokCount`, so the loop's bound variable stays unbound. -/
def attributeCounter (env : SearchEnv) (f : Fandom) (ty : String)
    (rating : Option Nat) (warnings : Option (List Nat)) (sampleSize : Option Nat)
    (sortColumn sortDirection : String) (fuel : Nat) :
    Option (Except (PyError × PyDict String Nat) (PyDict String Nat × Nat)) :=
  let tagCount : PyDict String Nat := []
  match sampleSize with
  | some n =>
    loop env f ty rating warnings sortColumn sortDirection (some n) fuel 0 1 tagCount
  | none =>
    match env (query f rating warnings "" "" 1) with
    | .error e => some (.error (e, tagCount))
    | .ok _page =>
      loop env f ty rating warnings sortColumn sortDirection none fuel 0 1 tagCount

end AO3Analyzer.Analyzer

namespace AO3Analyzer

/-! ### Basic lemmas about the dictionary embedding and `counter` -/

theorem counter_nil (d : PyDict String Nat) : counter d [] = d := rfl

theorem counter_cons (d : PyDict String Nat) (x : String) (xs : List String) :
    counter d (x :: xs) = counter (pySet d x ((pyGet d x).getD 0 + 1)) xs := rfl

theorem pyGet_pySet {α β : Type} [DecidableEq α] (d : PyDict α β) (k k' : α) (v : β) :
    pyGet (pySet d k v) k' = if k' = k then some v else pyGet d k' := by
  induction d with
  | nil =>
    simp [pySet, pyGet]
  | cons hd tl ih =>
    obtain ⟨k0, v0⟩ := hd
    simp only [pySet]
    by_cases hk : k = k0
    · subst hk
      simp only [if_pos rfl, pyGet]
      by_cases h' : k' = k <;> simp [h']
    · rw [if_neg hk]
      simp only [pyGet, ih]
      by_cases h' : k' = k0
      · subst h'
        have hne : ¬k' = k := fun h => hk h.symm
        simp [hne]
      · simp [h']

theorem pyContains_pySet {α β : Type} [DecidableEq α] (d : PyDict α β) (k k' : α) (v : β) :
    pyContains (pySet d k v) k' = (decide (k' = k) || pyContains d k') := by
  unfold pyContains
  rw [pyGet_pySet]
  by_cases h : k' = k <;> simp [h]

theorem pyGet_counter_getD (items : List String) (d : PyDict String Nat) (k : String) :
    (pyGet (counter d items) k).getD 0 = (pyGet d k).getD 0 + items.count k := by
  induction items generalizing d with
  | nil => simp [counter_nil]
  | cons x xs ih =>
    rw [counter_cons, ih, pyGet_pySet]
    by_cases h : k = x
    · subst h
      simp [List.count_cons]
      omega
    · simp [h, List.count_cons]

theorem pyContains_counter (items : List String) (d : PyDict String Nat) (k : String)
    (h : pyContains d k = true) : pyContains (counter d items) k = true := by
  induction items generalizing d with
  | nil => exact h
  | cons x xs ih =>
    rw [counter_cons]
    refine ih _ ?_
    rw [pyContains_pySet]
    simp [h]

/-! ### Concrete objects used in example runs -/

/-- A fandom whose filters are all at their defaults and whose stored total
is 40 works. -/
def sampleFandom : Fandom :=
  { fandomName := "F", session := none, singleChapter := false, language := "",
    crossover := none, completionStatus := none, revisedAt := "", characters := "",
    relationships := "", tags := "", wordCountConstraint := none, hitConstraint := none,
    bookmarkConstraint := none, commentConstraint := none, totalWorks := 40 }

/-- The same fandom with a stored total of zero works. -/
def zeroFandom : Fandom := { sampleFandom with totalWorks := 0 }

/-- The same fandom with a stored total of four works. -/
def quarterFandom : Fandom := { sampleFandom with totalWorks := 4 }

/-- A full result page of 20 works, the archive's fixed page size. -/
def fullPage : Page :=
  { totalResults := 1000,
    results := List.replicate 20 { tags := [], relationships := [], characters := [] } }

/-- An archive oracle that answers every query with a full 20-work page. -/
def env20 : SearchEnv := fun _q => .ok fullPage

/-- A three-work result page, each work carrying one tag. -/
def smallPage : Page :=
  { totalResults := 6,
    results := List.replicate 3 { tags := ["t"], relationships := [], characters := [] } }

/-- An archive oracle that answers every query with five results and an
empty page listing. -/
def okEnv : SearchEnv := fun _q => .ok { totalResults := 5, results := [] }

/-- An archive oracle that answers every query with one result and an empty
page listing. -/
def envQ : SearchEnv := fun _q => .ok { totalResults := 1, results := [] }

/-- An archive oracle that reports zero total results. -/
def env0 : SearchEnv := fun _q => .ok { totalResults := 0, results := [] }

/-- An archive oracle that serves page 1 (three tagged works) and fails
every later page with an HTTP transport error. -/
def failEnv : SearchEnv := fun q =>
  if q.page = 1 then .ok smallPage else .error (.httpError 503)

/-- An archive oracle serving a single one-work page whose work is tagged
`fluff` and `angst`. -/
def c6env : SearchEnv := fun _q =>
  .ok { totalResults := 1,
        results := [{ tags := ["fluff", "angst"], relationships := [], characters := [] }] }

/-- The number of page fetches of a successful `attributeCounter` run. -/
def fetchCount (r : Option (Except (PyError × TagCount) (TagCount × Nat))) : Option Nat :=
  match r with
  | some (.ok (_, n)) => some n
  | _ => none

end AO3Analyzer

namespace AO3Analyzer

/-! ### Unfolding lemmas for the pagination loop -/

/-- The pagination loop exits immediately (no fetch) once the running
counter has reached the target. -/
theorem attrLoop_stop (env : SearchEnv) (f : Fandom) (ty : String) (rating : Option Nat)
    (warnings : Option (List Nat)) (sortColumn sortDirection : String)
    (totalWorkCount fuel ficsCounted pageNumber : Nat) (regs : Regs) (tagCount : TagCount)
    (h : totalWorkCount ≤ ficsCounted) :
    Fandom.attrLoop env f ty rating warnings sortColumn sortDirection totalWorkCount
        fuel ficsCounted pageNumber regs tagCount = some (.ok (tagCount, 0)) := by
  rw [Fandom.attrLoop.eq_def]
  simp [Nat.not_lt.mpr h]

/-- One full iteration of the pagination loop: a successful fetch and a
successful page traversal followed by a successful rest of the run add one
to the fetch count. -/
theorem attrLoop_step_ok (env : SearchEnv) (f : Fandom) (ty : String) (rating : Option Nat)
    (warnings : Option (List Nat)) (sortColumn sortDirection : String)
    (totalWorkCount fuel ficsCounted pageNumber : Nat) (regs : Regs) (tagCount : TagCount)
    (page : Page) (tc' : TagCount) (regs' : Regs) (fics' : Nat) (tcf : TagCount) (m : Nat)
    (h : ficsCounted < totalWorkCount)
    (henv : env (f.searchQuery rating warnings sortColumn sortDirection pageNumber) = .ok page)
    (hproc : processWorks ty page.results tagCount regs ficsCounted = .ok (tc', regs', fics'))
    (hrest : Fandom.attrLoop env f ty rating warnings sortColumn sortDirection totalWorkCount
        fuel fics' (pageNumber + 1) regs' tc' = some (.ok (tcf, m))) :
    Fandom.attrLoop env f ty rating warnings sortColumn sortDirection totalWorkCount
        (fuel + 1) ficsCounted pageNumber regs tagCount = some (.ok (tcf, m + 1)) := by
  rw [Fandom.attrLoop.eq_def]
  simp [h, henv, hproc, hrest]

/-- Unfolding of `processWorks` on a non-empty page. -/
theorem processWorks_cons (ty : String) (w : Work) (ws : List Work) (tc : TagCount)
    (regs : Regs) (fics : Nat) :
    processWorks ty (w :: ws) tc regs fics
      = match processWork ty tc regs w with
        | .error p => .error p
        | .ok (tc', regs') => processWorks ty ws tc' regs' (fics + 1) := rfl

/-- Traversing a page of works that carry no attributes at all leaves the
default `tags` table unchanged and advances the counter by the page length. -/
theorem processWorks_tags_emptyRep (n : Nat) (regs : Regs) (fics : Nat) :
    processWorks "tags"
        (List.replicate (n + 1) { tags := [], relationships := [], characters := [] })
        [("tags", [])] regs fics
      = .ok ([("tags", [])], { regs with tagList := some [] }, fics + (n + 1)) := by
  induction n generalizing regs fics with
  | zero =>
    simp [processWorks, processWork, countInto, pyContains, pyGet, pySet, counter_nil,
      List.replicate_succ]
  | succ k ih =>
    rw [List.replicate_succ]
    have hstep : processWork "tags" [("tags", [])] regs
        { tags := [], relationships := [], characters := [] }
        = .ok ([("tags", [])], { regs with tagList := some [] }) := by
      simp [processWork, countInto, pyContains, pyGet, pySet, counter_nil]
    rw [processWorks_cons, hstep]
    show processWorks "tags"
        (List.replicate (k + 1) { tags := [], relationships := [], characters := [] })
        [("tags", [])] { regs with tagList := some [] } (fics + 1) = _
    rw [ih]
    have harith : fics + 1 + (k + 1) = fics + (k + 1 + 1) := by omega
    rw [harith]

/-! ### Claim theorems -/

/-- Claim C4: for every numeric filter dimension, the constraint built by
the `Fandom` constructor satisfies: both bounds unset yields no constraint;
a maximum without a minimum yields the interval with minimum zero (not
unbounded below); a minimum without a maximum yields the half-bounded
interval; and `Fandom.init` builds each of the four dimension constraints
(word count, hits, bookmarks, comments) with exactly this rule. -/
theorem constraint_builder_policy :
    mkConstraint none none = none
    ∧ (∀ mx : Int, mkConstraint none (some mx) = some { lowest := 0, highest := some mx })
    ∧ (∀ mn : Int, mkConstraint (some mn) none = some { lowest := mn, highest := none })
    ∧ (∀ (env : SearchEnv) (fandomName : String) (session : Option Unit)
         (singleChapter : Bool) (wordCountMin wordCountMax : Option Int) (language : String)
         (minHits maxHits minBookmarks maxBookmarks minComments maxComments : Option Int)
         (crossover completionStatus : Option Bool)
         (revisedAt characters relationships tags : String) (f : Fandom),
        Fandom.init env fandomName session singleChapter wordCountMin wordCountMax language
            minHits maxHits minBookmarks maxBookmarks minComments maxComments
            crossover completionStatus revisedAt characters relationships tags = .ok f →
        f.wordCountConstraint = mkConstraint wordCountMin wordCountMax
        ∧ f.hitConstraint = mkConstraint minHits maxHits
        ∧ f.bookmarkConstraint = mkConstraint minBookmarks maxBookmarks
        ∧ f.commentConstraint = mkConstraint minComments maxComments) := by
  refine ⟨rfl, fun mx => rfl, fun mn => rfl, ?_⟩
  intro env fandomName session singleChapter wordCountMin wordCountMax language
    minHits maxHits minBookmarks maxBookmarks minComments maxComments
    crossover completionStatus revisedAt characters relationships tags f h
  simp only [Fandom.init] at h
  split at h
  · exact absurd h (by simp)
  · injection h with h
    subst h
    exact ⟨rfl, rfl, rfl, rfl⟩

/-- Expected `Fandom` value of the constructor run used in the C4 witness. -/
def cbFandom : Fandom :=
  { fandomName := "F", session := none, singleChapter := false, language := "",
    crossover := none, completionStatus := none, revisedAt := "", characters := "",
    relationships := "", tags := "",
    wordCountConstraint := some { lowest := 0, highest := some 10 },
    hitConstraint := some { lowest := 5, highest := none },
    bookmarkConstraint := none, commentConstraint := none, totalWorks := 5 }

/-- Witness for C4: a concrete constructor run with a word-count maximum
only and a hits minimum only. -/
theorem constraint_builder_policy_witness :
    Fandom.init okEnv "F" none false none (some 10) "" (some 5) none none none none none
        none none "" "" "" "" = .ok cbFandom
    ∧ (cbFandom.wordCountConstraint = mkConstraint none (some 10)
       ∧ cbFandom.hitConstraint = mkConstraint (some 5) none
       ∧ cbFandom.bookmarkConstraint = mkConstraint none none
       ∧ cbFandom.commentConstraint = mkConstraint none none) :=
  ⟨rfl, constraint_builder_policy.2.2.2 okEnv "F" none false none (some 10) "" (some 5)
      none none none none none none none "" "" "" "" cbFandom rfl⟩

/-- Claim C6: `attributeCounter` seeded with `{"tags": {"fluff": 3}}` over a
page stream containing exactly one work whose tag list is
`["fluff", "angst"]` extends the seed to `{"tags": {"fluff": 4, "angst": 1}}`
(one page fetch). -/
theorem attributeCounter_seeded_extends :
    Fandom.attributeCounter c6env sampleFandom "tags" none none (some 1) "" "" 1 0
        (some [("tags", [("fluff", 3)])]) 2
      = some (.ok ([("tags", [("fluff", 4), ("angst", 1)])], 1)) := rfl

/-- Claim C2: the pagination loop of `fandom.py`'s `attributeCounter` stops
as soon as the number of consumed works is greater than or equal to the
target count (no fetch happens once `ficsCounted ≥ totalWorkCount`), and
with the archive's fixed page size of 20 a target of 40 performs exactly 2
page fetches, a target of 21 performs exactly 2, and a target of 20
performs exactly 1. -/
theorem attributeCounter_stops_at_target :
    (∀ (env : SearchEnv) (f : Fandom) (ty : String) (rating : Option Nat)
       (warnings : Option (List Nat)) (sortColumn sortDirection : String)
       (totalWorkCount fuel ficsCounted pageNumber : Nat) (regs : Regs) (tagCount : TagCount),
        totalWorkCount ≤ ficsCounted →
        Fandom.attrLoop env f ty rating warnings sortColumn sortDirection totalWorkCount
            fuel ficsCounted pageNumber regs tagCount = some (.ok (tagCount, 0)))
    ∧ fetchCount (Fandom.attributeCounter env20 sampleFandom "tags" none none (some 40)
        "" "" 1 0 none 5) = some 2
    ∧ fetchCount (Fandom.attributeCounter env20 sampleFandom "tags" none none (some 21)
        "" "" 1 0 none 5) = some 2
    ∧ fetchCount (Fandom.attributeCounter env20 sampleFandom "tags" none none (some 20)
        "" "" 1 0 none 5) = some 1 := by
  have hpr1 : processWorks "tags" fullPage.results [("tags", [])]
      { relationshipList := none, characterList := none, tagList := none } 0
      = .ok ([("tags", [])],
             { relationshipList := none, characterList := none, tagList := some [] }, 20) :=
    processWorks_tags_emptyRep 19
      { relationshipList := none, characterList := none, tagList := none } 0
  have hpr2 : processWorks "tags" fullPage.results [("tags", [])]
      { relationshipList := none, characterList := none, tagList := some [] } 20
      = .ok ([("tags", [])],
             { relationshipList := none, characterList := none, tagList := some [] }, 40) :=
    processWorks_tags_emptyRep 19
      { relationshipList := none, characterList := none, tagList := some [] } 20
  refine ⟨?_, ?_, ?_, ?_⟩
  · intro env f ty rating warnings sortColumn sortDirection totalWorkCount fuel ficsCounted
      pageNumber regs tagCount h
    exact attrLoop_stop env f ty rating warnings sortColumn sortDirection totalWorkCount
      fuel ficsCounted pageNumber regs tagCount h
  · have e40 : Fandom.attrLoop env20 sampleFandom "tags" none none "" "" 40 5 0 1
        { relationshipList := none, characterList := none, tagList := none } [("tags", [])]
        = some (.ok ([("tags", [])], 2)) := by
      refine attrLoop_step_ok env20 sampleFandom "tags" none none "" "" 40 4 0 1 _ _
        fullPage _ _ 20 _ 1 (by decide) rfl hpr1 ?_
      refine attrLoop_step_ok env20 sampleFandom "tags" none none "" "" 40 3 20 2 _ _
        fullPage _ _ 40 _ 0 (by decide) rfl hpr2 ?_
      exact attrLoop_stop env20 sampleFandom "tags" none none "" "" 40 3 40 3 _ _
        (by decide)
    show fetchCount (Fandom.attrLoop env20 sampleFandom "tags" none none "" "" 40 5 0 1
        { relationshipList := none, characterList := none, tagList := none } [("tags", [])])
      = some 2
    rw [e40]
    rfl
  · have e21 : Fandom.attrLoop env20 sampleFandom "tags" none none "" "" 21 5 0 1
        { relationshipList := none, characterList := none, tagList := none } [("tags", [])]
        = some (.ok ([("tags", [])], 2)) := by
      refine attrLoop_step_ok env20 sampleFandom "tags" none none "" "" 21 4 0 1 _ _
        fullPage _ _ 20 _ 1 (by decide) rfl hpr1 ?_
      refine attrLoop_step_ok env20 sampleFandom "tags" none none "" "" 21 3 20 2 _ _
        fullPage _ _ 40 _ 0 (by decide) rfl hpr2 ?_
      exact attrLoop_stop env20 sampleFandom "tags" none none "" "" 21 3 40 3 _ _
        (by decide)
    show fetchCount (Fandom.attrLoop env20 sampleFandom "tags" none none "" "" 21 5 0 1
        { relationshipList := none, characterList := none, tagList := none } [("tags", [])])
      = some 2
    rw [e21]
    rfl
  · have e20 : Fandom.attrLoop env20 sampleFandom "tags" none none "" "" 20 5 0 1
        { relationshipList := none, characterList := none, tagList := none } [("tags", [])]
        = some (.ok ([("tags", [])], 1)) := by
      refine attrLoop_step_ok env20 sampleFandom "tags" none none "" "" 20 4 0 1 _ _
        fullPage _ _ 20 _ 0 (by decide) rfl hpr1 ?_
      exact attrLoop_stop env20 sampleFandom "tags" none none "" "" 20 4 20 2 _ _
        (by decide)
    show fetchCount (Fandom.attrLoop env20 sampleFandom "tags" none none "" "" 20 5 0 1
        { relationshipList := none, characterList := none, tagList := none } [("tags", [])])
      = some 1
    rw [e20]
    rfl

/-- Witness for C2: a loop entered with nine works already consumed against
a target of five performs no further fetch and hands back the table. -/
theorem attributeCounter_stops_at_target_witness :
    Fandom.attrLoop env20 sampleFandom "tags" none none "" "" 5 7 9 3
        { relationshipList := none, characterList := none, tagList := none }
        [("tags", [("x", 2)])]
      = some (.ok ([("tags", [("x", 2)])], 0)) :=
  attributeCounter_stops_at_target.1 env20 sampleFandom "tags" none none "" "" 5 7 9 3
    { relationshipList := none, characterList := none, tagList := none }
    [("tags", [("x", 2)])] (by decide)

/-- Claim C3: when no sample size is given and the preliminary total-count
query reports zero results, `attributeCounter` performs zero page fetches,
terminates for every fuel value, raises nothing, and returns the freshly
initialized (empty) frequency tables. -/
theorem attributeCounter_zeroTotal_noFetch :
    ∀ (env : SearchEnv) (f : Fandom) (ty : String) (rating : Option Nat)
      (warnings : Option (List Nat)) (sortColumn sortDirection : String)
      (startPage waitTime fuel : Nat) (page : Page),
      env (f.searchQuery rating warnings "" "" 1) = .ok page →
      page.totalResults = 0 →
      Fandom.attributeCounter env f ty rating warnings none sortColumn sortDirection
          startPage waitTime none fuel
        = some (.ok (initTagCount ty, 0)) := by
  intro env f ty rating warnings sortColumn sortDirection startPage waitTime fuel page henv h0
  simp only [Fandom.attributeCounter, henv, h0]
  rw [Fandom.attrLoop.eq_def]
  simp

/-- Witness for C3: a zero-result archive produces an immediate empty
aggregation with zero fetches. -/
theorem attributeCounter_zeroTotal_noFetch_witness :
    Fandom.attributeCounter env0 sampleFandom "all" none none none "" "" 1 0 none 3
      = some (.ok (initTagCount "all", 0)) :=
  attributeCounter_zeroTotal_noFetch env0 sampleFandom "all" none none "" "" 1 0 3
    { totalResults := 0, results := [] } rfl rfl

end AO3Analyzer

namespace AO3Analyzer

/-- Claim C5: per result item, selector `tags` selects exactly the item's
tag list, `relationships` exactly its relationship list, `characters`
exactly its character list, and `all` or any unrecognized selector selects
all three lists; every attribute value of the selected list(s) increments
its counter in the corresponding frequency table (created at count 1 when
absent, which is what `counter` does on a missing key). -/
theorem attribute_selector_semantics :
    (∀ (d : PyDict String Nat) (regs : Regs) (w : Work),
        processWork "tags" [("tags", d)] regs w
          = .ok ([("tags", counter d w.tags)], { regs with tagList := some w.tags }))
    ∧ (∀ (d : PyDict String Nat) (regs : Regs) (w : Work),
        processWork "relationships" [("relationships", d)] regs w
          = .ok ([("relationships", counter d w.relationships)],
                 { regs with relationshipList := some w.relationships }))
    ∧ (∀ (d : PyDict String Nat) (regs : Regs) (w : Work),
        processWork "characters" [("characters", d)] regs w
          = .ok ([("characters", counter d w.characters)],
                 { regs with characterList := some w.characters }))
    ∧ (∀ (ty : String) (d1 d2 d3 : PyDict String Nat) (regs : Regs) (w : Work),
        ty ≠ "relationships" → ty ≠ "characters" → ty ≠ "tags" →
        processWork ty [("tags", d1), ("relationships", d2), ("characters", d3)] regs w
          = .ok ([("tags", counter d1 w.tags),
                  ("relationships", counter d2 w.relationships),
                  ("characters", counter d3 w.characters)],
                 { relationshipList := some w.relationships,
                   characterList := some w.characters, tagList := some w.tags }))
    ∧ initTagCount "tags" = [("tags", [])]
    ∧ initTagCount "relationships" = [("relationships", [])]
    ∧ initTagCount "characters" = [("characters", [])]
    ∧ (∀ ty : String, ty ≠ "tags" → ty ≠ "relationships" → ty ≠ "characters" →
        initTagCount ty = [("tags", []), ("relationships", []), ("characters", [])]) := by
  refine ⟨fun d regs w => rfl, fun d regs w => rfl, fun d regs w => rfl,
          ?_, rfl, rfl, rfl, ?_⟩
  · intro ty d1 d2 d3 regs w h1 h2 h3
    simp [processWork, countInto, pyContains, pyGet, pySet, h1, h2, h3]
  · intro ty h1 h2 h3
    simp [initTagCount, h1, h2, h3]

/-- Witness for C5: an unrecognized selector string counts all three lists
of a concrete work into all three tables. -/
theorem attribute_selector_semantics_witness :
    processWork "all" [("tags", [("a", 1)]), ("relationships", []), ("characters", [])]
        { relationshipList := none, characterList := none, tagList := none }
        { tags := ["a"], relationships := ["r"], characters := ["c"] }
      = .ok ([("tags", [("a", 2)]), ("relationships", [("r", 1)]), ("characters", [("c", 1)])],
             { relationshipList := some ["r"], characterList := some ["c"],
               tagList := some ["a"] }) :=
  attribute_selector_semantics.2.2.2.1 "all" [("a", 1)] [] []
    { relationshipList := none, characterList := none, tagList := none }
    { tags := ["a"], relationships := ["r"], characters := ["c"] }
    (by decide) (by decide) (by decide)

/-- Claim C7: `getRatingComposition` issues one filtered query per rating
bucket for each of the five fixed buckets 9 to 13 and returns the
five-entry mapping whose entry for bucket `b` is the pair
`(count_b, round(100 * count_b / totalWorks, 2))`. -/
theorem ratingComposition_five_buckets :
    ∀ (env : SearchEnv) (f : Fandom) (p9 p10 p11 p12 p13 : Page),
      f.totalWorks ≠ 0 →
      env (f.searchQuery (some 9) none "" "" 1) = .ok p9 →
      env (f.searchQuery (some 10) none "" "" 1) = .ok p10 →
      env (f.searchQuery (some 11) none "" "" 1) = .ok p11 →
      env (f.searchQuery (some 12) none "" "" 1) = .ok p12 →
      env (f.searchQuery (some 13) none "" "" 1) = .ok p13 →
      Fandom.getRatingComposition env f = .ok
        [(9, some (p9.totalResults,
            round2 (100 * (p9.totalResults : ℚ) / (f.totalWorks : ℚ)))),
         (10, some (p10.totalResults,
            round2 (100 * (p10.totalResults : ℚ) / (f.totalWorks : ℚ)))),
         (11, some (p11.totalResults,
            round2 (100 * (p11.totalResults : ℚ) / (f.totalWorks : ℚ)))),
         (12, some (p12.totalResults,
            round2 (100 * (p12.totalResults : ℚ) / (f.totalWorks : ℚ)))),
         (13, some (p13.totalResults,
            round2 (100 * (p13.totalResults : ℚ) / (f.totalWorks : ℚ))))] := by
  intro env f p9 p10 p11 p12 p13 hT h9 h10 h11 h12 h13
  have hTQ : ((f.totalWorks : ℚ)) ≠ 0 := Nat.cast_ne_zero.mpr hT
  have hrange : List.range 5 = [0, 1, 2, 3, 4] := rfl
  unfold Fandom.getRatingComposition
  rw [hrange]
  simp [Fandom.ratingLoop, h9, h10, h11, h12, h13, pydiv, hTQ, pySet]

/-- Witness for C7: four total works, one work in every bucket, giving
25 percent per bucket. -/
theorem ratingComposition_five_buckets_witness :
    Fandom.getRatingComposition envQ quarterFandom = .ok
      [(9, some (1, 25)), (10, some (1, 25)), (11, some (1, 25)),
       (12, some (1, 25)), (13, some (1, 25))] := by
  have h := ratingComposition_five_buckets envQ quarterFandom
    { totalResults := 1, results := [] } { totalResults := 1, results := [] }
    { totalResults := 1, results := [] } { totalResults := 1, results := [] }
    { totalResults := 1, results := [] } (by decide) rfl rfl rfl rfl rfl
  rw [h]
  norm_num [quarterFandom, sampleFandom, round2, rhe]

/-- Claim C8: frequency-table counts only grow under `counter`: an existing
key is never removed, no count ever decreases, and the result is
deterministic: the final count of an attribute equals its previous count
plus the number of occurrences in the counted list, and over a whole
result stream (a fold of `counter`) it equals the seed count plus the total
number of occurrences across the selected attribute lists. -/
theorem counter_monotone_deterministic :
    (∀ (d : PyDict String Nat) (items : List String) (k : String),
        pyContains d k = true → pyContains (counter d items) k = true)
    ∧ (∀ (d : PyDict String Nat) (items : List String) (k : String),
        (pyGet d k).getD 0 ≤ (pyGet (counter d items) k).getD 0)
    ∧ (∀ (d : PyDict String Nat) (items : List String) (k : String),
        (pyGet (counter d items) k).getD 0 = (pyGet d k).getD 0 + items.count k)
    ∧ (∀ (lists : List (List String)) (d : PyDict String Nat) (k : String),
        (pyGet (lists.foldl counter d) k).getD 0
          = (pyGet d k).getD 0 + (lists.map (fun l => l.count k)).sum) := by
  refine ⟨fun d items k h => pyContains_counter items d k h,
          fun d items k => ?_, fun d items k => pyGet_counter_getD items d k, ?_⟩
  · rw [pyGet_counter_getD]
    omega
  · intro lists
    induction lists with
    | nil => intro d k; simp
    | cons l ls ih =>
      intro d k
      rw [List.foldl_cons, ih, pyGet_counter_getD, List.map_cons, List.sum_cons]
      omega

/-- Witness for C8: a key present before counting is still present after. -/
theorem counter_monotone_deterministic_witness :
    pyContains [("a", 2)] "a" = true
    ∧ pyContains (counter [("a", 2)] ["b", "a"]) "a" = true :=
  ⟨by decide, counter_monotone_deterministic.1 [("a", 2)] ["b", "a"] "a" (by decide)⟩

/-- Claim C9: an error raised by the archive collaborator during a page
fetch of the pagination loop is propagated to the caller unchanged, the
run aborts, and the table handed back with the error is exactly the table
accumulated from the pages fully processed before the failure (the caller
already holds it through the seed alias); concretely, with three-work
pages and a transport failure on page 2, the partial table holds exactly
the page-1 counts. -/
theorem attributeCounter_error_propagation :
    (∀ (env : SearchEnv) (f : Fandom) (ty : String) (rating : Option Nat)
       (warnings : Option (List Nat)) (sortColumn sortDirection : String)
       (totalWorkCount ficsCounted pageNumber fuel : Nat) (regs : Regs) (tagCount : TagCount)
       (e : PyError),
        ficsCounted < totalWorkCount →
        env (f.searchQuery rating warnings sortColumn sortDirection pageNumber) = .error e →
        Fandom.attrLoop env f ty rating warnings sortColumn sortDirection totalWorkCount
            (fuel + 1) ficsCounted pageNumber regs tagCount = some (.error (e, tagCount)))
    ∧ Fandom.attributeCounter failEnv sampleFandom "tags" none none (some 6) "" "" 1 0 none 3
        = some (.error (.httpError 503, [("tags", [("t", 3)])])) := by
  constructor
  · intro env f ty rating warnings sortColumn sortDirection totalWorkCount ficsCounted
      pageNumber fuel regs tagCount e h henv
    rw [Fandom.attrLoop.eq_def]
    simp [h, henv]
  · rfl

/-- Witness for C9: a fetch failure at the head of a pending loop iteration
surfaces the transport error with the accumulated table untouched. -/
theorem attributeCounter_error_propagation_witness :
    Fandom.attrLoop failEnv sampleFandom "tags" none none "" "" 5 4 0 2
        { relationshipList := none, characterList := none, tagList := none }
        [("tags", [])]
      = some (.error (.httpError 503, [("tags", [])])) :=
  attributeCounter_error_propagation.1 failEnv sampleFandom "tags" none none "" "" 5 0 2 3
    { relationshipList := none, characterList := none, tagList := none }
    [("tags", [])] (.httpError 503) (by decide) rfl

/-- Counterexample to claim C1 as stated: at a stored total of zero works
the composition operations do not report an input-validation failure; the
percentage computation itself raises the division-by-zero fault
(`ZeroDivisionError`), which propagates uncaught. -/
theorem composition_zeroTotal_divFault :
    Fandom.getRatingComposition okEnv zeroFandom = .error .zeroDivisionError
    ∧ Fandom.getWarningComposition okEnv zeroFandom none = .error .zeroDivisionError :=
  ⟨rfl, rfl⟩

/-- Claim C1 amended: for every fandom whose stored total is zero, as soon
as the first bucket query succeeds, `getRatingComposition` and
`getWarningComposition` abort with the uncaught `ZeroDivisionError` raised
by the percentage division; no zero-total validation guard exists. -/
theorem composition_zeroTotal_raises :
    ∀ (env : SearchEnv) (f : Fandom) (rr : Option Nat) (p p' : Page),
      f.totalWorks = 0 →
      (env (f.searchQuery (some 9) none "" "" 1) = .ok p →
        Fandom.getRatingComposition env f = .error .zeroDivisionError)
      ∧ (env (f.searchQuery rr (some [14]) "" "" 1) = .ok p' →
        Fandom.getWarningComposition env f rr = .error .zeroDivisionError) := by
  intro env f rr p p' hT
  constructor
  · intro henv
    have hrange : List.range 5 = [0, 1, 2, 3, 4] := rfl
    unfold Fandom.getRatingComposition
    rw [hrange]
    simp [Fandom.ratingLoop, henv, pydiv, hT]
  · intro henv
    unfold Fandom.getWarningComposition warningPairs
    simp [Fandom.warningLoop, henv, pydiv, hT]

/-- Witness for the amended C1: a zero-total fandom against an archive that
answers every query. -/
theorem composition_zeroTotal_raises_witness :
    Fandom.getRatingComposition envQ zeroFandom = .error .zeroDivisionError
    ∧ Fandom.getWarningComposition envQ zeroFandom none = .error .zeroDivisionError := by
  have h := composition_zeroTotal_raises envQ zeroFandom none
    { totalResults := 1, results := [] } { totalResults := 1, results := [] } rfl
  exact ⟨h.1 rfl, h.2 rfl⟩

/-- Claim C10: in the `AO3_analyzer.py` variant, `attributeCounter` called
without a sample size always fails before consuming any result: the
preliminary total is stored under the misspelled `totalWrokCount`, so the
loop condition reads the unbound `totalWorkCount` and raises `NameError`
(or, if the preliminary query itself fails, that error surfaces first);
either way the run ends in an error with the empty table. -/
theorem analyzer_attributeCounter_noSampleSize_fails :
    ∀ (env : SearchEnv) (f : Fandom) (ty : String) (rating : Option Nat)
      (warnings : Option (List Nat)) (sortColumn sortDirection : String) (fuel : Nat),
      (∃ e, Analyzer.attributeCounter env f ty rating warnings none sortColumn sortDirection fuel
          = some (.error (e, [])))
      ∧ (∀ page, env (Analyzer.query f rating warnings "" "" 1) = .ok page →
          Analyzer.attributeCounter env f ty rating warnings none sortColumn sortDirection fuel
            = some (.error (.nameError "totalWorkCount", []))) := by
  intro env f ty rating warnings sortColumn sortDirection fuel
  cases henv : env (Analyzer.query f rating warnings "" "" 1) with
  | error e =>
    constructor
    · refine ⟨e, ?_⟩
      simp [Analyzer.attributeCounter, henv]
    · intro page hp
      exact Except.noConfusion hp
  | ok page =>
    have hloop : Analyzer.attributeCounter env f ty rating warnings none sortColumn
        sortDirection fuel = some (.error (.nameError "totalWorkCount", [])) := by
      simp only [Analyzer.attributeCounter, henv]
      rw [Analyzer.loop.eq_def]
    exact ⟨⟨.nameError "totalWorkCount", hloop⟩, fun page' hp => hloop⟩

/-- Witness for C10: against an archive that answers every query, the
no-sample-size run still dies on the unbound loop bound. -/
theorem analyzer_attributeCounter_noSampleSize_fails_witness :
    Analyzer.attributeCounter env20 sampleFandom "all" none none none "" "" 3
      = some (.error (.nameError "totalWorkCount", [])) :=
  (analyzer_attributeCounter_noSampleSize_fails env20 sampleFandom "all" none none "" "" 3).2
    fullPage rfl

end AO3Analyzer
